import Mathlib

/-
Verification development for the script-cancellation demo extension.

The embedding models the Execution Registry and Cancellation Coordinator of
src/background.js.  That file carries two revisions of the background
service: the current cooperative-cancellation revision (its functions are
modelled as `handleExecuteScript` and `handleCancelScript`) and an earlier
revision whose cancel handler gates the terminated transition on the
result of `chrome.userScripts.terminate` (modelled as
`handleCancelScriptLegacy`).  The popup validation of src/popup.js is
modelled as `executeBtnClick`, and the periodic cleanup sweep as `reap`.

External effects are modelled explicitly: the outcomes of the browser API
calls (dispatch, flag injection, terminate, indicator update) are inputs
of the handlers, the clock is an input `now`, and each handler also
returns the ordered list of external calls it issued (`Event`) and the
fallback timers it scheduled.
-/

namespace ScriptCancelDemo

/-- Execution status stored in the `status` field of a record of
`activeExecutions` in src/background.js.  The code assigns `running`,
`completed` and `terminated`; `failed` appears in the documented state
machine but is never assigned by the code. -/
inductive Status where
  | running
  | completed
  | terminated
  | failed
deriving DecidableEq

/-- One entry of the `activeExecutions` map (src/background.js lines
166-173).  `tempId` is the cooperative-cancellation token generated before
dispatch (line 39), abstracted to a number.  Timestamps are naturals
(milliseconds).  `endTime` is absent (`none`) while running. -/
structure ExecutionRecord where
  executionId : Nat
  tempId : Nat
  tabId : Nat
  startTime : Nat
  duration : Nat
  status : Status
  endTime : Option Nat
deriving DecidableEq

/-- The `activeExecutions` JavaScript `Map`, modelled by its lookup
function: `reg id` is `Map.get(id)`. -/
abbrev Registry := Nat → Option ExecutionRecord

/-- `Map.set(id, r)`. -/
def Registry.set (reg : Registry) (id : Nat) (r : ExecutionRecord) : Registry :=
  fun j => if j = id then some r else reg j

/-- The empty `activeExecutions` map. -/
def emptyRegistry : Registry := fun _ => none

/-- External calls a handler issues, in program order. -/
inductive Event where
  | dispatchCall
  | registryInsert (executionId : Nat)
  | scheduleFallback (executionId : Nat) (delayMs : Nat)
  | flagInjectCall (tabId : Nat)
  | terminateCall (executionId : Nat)
deriving DecidableEq

/-- Outcome of the awaited `chrome.userScripts.execute` dispatch call: it
either throws, or resolves with `results[0]?.executionId` (which may be
absent). -/
inductive DispatchOutcome where
  | throws (msg : String)
  | resolves (executionId : Option Nat)
deriving DecidableEq

/-- Environment of one `handleExecuteScript` call: availability of the
userScripts API, the active tab (if any), the dispatch outcome, the
generated cooperative-cancellation token, and the clock value at record
creation. -/
structure StartEnv where
  apiAvailable : Bool
  activeTab : Option Nat
  dispatch : DispatchOutcome
  tempId : Nat
  now : Nat

/-- Response object of `handleExecuteScript`: success carries the
executionId, failure carries the error message. -/
structure StartResult where
  success : Bool
  executionId : Option Nat
  error : Option String
deriving DecidableEq

/-- Full effect of one `handleExecuteScript` call: the updated registry,
the response, the external calls issued in order, and the scheduled
fallback timers as (fire time, executionId) pairs. -/
structure StartOutput where
  reg : Registry
  result : StartResult
  events : List Event
  timers : List (Nat × Nat)

/-- Error message of src/background.js lines 24-27. -/
def apiUnavailableMsg : String :=
  "chrome.userScripts.execute API is not available. Make sure you:\n1. Are running Chrome with --enable-features=ApiUserScriptsExecute\n2. Are in Developer Mode (chrome://extensions)\n3. Have rebuilt Chrome after the latest changes"

/-- Model of `handleExecuteScript` (src/background.js lines 18-197,
cooperative-cancellation revision).  Checks API availability, resolves the
active tab, awaits the dispatch call, reads `results[0]?.executionId`,
and only then inserts the record (status `running`, `startTime = now`) and
schedules the fallback timer for `duration + 1000` ms. -/
def handleExecuteScript (env : StartEnv) (duration : Nat) (reg : Registry) : StartOutput :=
  if env.apiAvailable = false then
    ⟨reg, ⟨false, none, some apiUnavailableMsg⟩, [], []⟩
  else
    match env.activeTab with
    | none => ⟨reg, ⟨false, none, some "No active tab found"⟩, [], []⟩
    | some tabId =>
      match env.dispatch with
      | .throws msg => ⟨reg, ⟨false, none, some msg⟩, [.dispatchCall], []⟩
      | .resolves none =>
          ⟨reg, ⟨false, none, some "No execution ID returned by browser"⟩, [.dispatchCall], []⟩
      | .resolves (some eid) =>
          ⟨Registry.set reg eid ⟨eid, env.tempId, tabId, env.now, duration, .running, none⟩,
            ⟨true, some eid, none⟩,
            [.dispatchCall, .registryInsert eid, .scheduleFallback eid (duration + 1000)],
            [(env.now + duration + 1000, eid)]⟩

/-- Model of the fallback timer callback scheduled at src/background.js
lines 176-182: when it fires, a record still in `running` status becomes
`completed` with `endTime` set to the current time; a record already in a
terminal status, or an absent record, is left untouched. -/
def fallbackFire (reg : Registry) (eid : Nat) (now : Nat) : Registry :=
  match reg eid with
  | none => reg
  | some e =>
      if e.status = .running then
        Registry.set reg eid { e with status := .completed, endTime := some now }
      else reg

/-- Response object of a cancel handler: a success flag, the terminated
flag, and an optional error message. -/
structure CancelResult where
  success : Bool
  terminated : Bool
  error : Option String
deriving DecidableEq

/-- Environment of one `handleCancelScript` call (cooperative revision):
outcome of the flag-injection `chrome.scripting.executeScript` call,
outcome of the `chrome.userScripts.terminate` call, and the clock. -/
structure CancelEnv where
  flagInject : Except String Unit
  terminate : Except String Bool
  now : Nat

/-- Model of `handleCancelScript` (src/background.js lines 199-254,
cooperative-cancellation revision).  Missing record and non-running record
fail early with no state change and no external call.  Otherwise the
flag-injection call and the terminate call are both issued with their
failures swallowed by inner try/catch blocks, and the record is marked
`terminated` with `endTime = now` unconditionally; the response reports
success and terminated in every such case. -/
def handleCancelScript (env : CancelEnv) (eid : Nat) (reg : Registry) :
    Registry × CancelResult × List Event :=
  match reg eid with
  | none => (reg, ⟨false, false, some "Execution not found"⟩, [])
  | some e =>
      if e.status ≠ .running then
        (reg, ⟨false, false, some "Execution is not running"⟩, [])
      else
        (Registry.set reg eid { e with status := .terminated, endTime := some env.now },
          ⟨true, true, none⟩,
          [.flagInjectCall e.tabId, .terminateCall eid])

/-- Environment of one legacy cancel call: outcome of the awaited
`chrome.userScripts.terminate` call and of the later indicator-update
injection, plus the clock. -/
structure CancelEnvLegacy where
  terminate : Except String Bool
  indicatorUpdate : Except String Unit
  now : Nat

/-- Model of the legacy `handleCancelScript` (src/background.js lines
416-461, earlier revision).  After the same precondition checks, it awaits
`chrome.userScripts.terminate(executionId)`: on a thrown error the outer
catch returns a failure and the record is unchanged; on a falsy result it
returns `Failed to terminate script` and the record is unchanged; only on
a truthy result is the record marked `terminated` (after which a thrown
indicator update still reaches the outer catch, with the registry change
already applied). -/
def handleCancelScriptLegacy (env : CancelEnvLegacy) (eid : Nat) (reg : Registry) :
    Registry × CancelResult :=
  match reg eid with
  | none => (reg, ⟨false, false, some "Execution not found"⟩)
  | some e =>
      if e.status ≠ .running then
        (reg, ⟨false, false, some "Execution is not running"⟩)
      else
        match env.terminate with
        | .error msg => (reg, ⟨false, false, some msg⟩)
        | .ok false => (reg, ⟨false, false, some "Failed to terminate script"⟩)
        | .ok true =>
            match env.indicatorUpdate with
            | .error msg =>
                (Registry.set reg eid { e with status := .terminated, endTime := some env.now },
                  ⟨false, false, some msg⟩)
            | .ok _ =>
                (Registry.set reg eid { e with status := .terminated, endTime := some env.now },
                  ⟨true, true, none⟩)

/-- Retention window of the cleanup sweep: `5 * 60 * 1000` ms
(src/background.js line 261). -/
def retentionMs : Nat := 5 * 60 * 1000

/-- Interval of the cleanup sweep: `60000` ms (src/background.js line 265). -/
def reapIntervalMs : Nat := 60000

/-- Model of the periodic cleanup sweep (src/background.js lines 257-265):
every record with `now - startTime > retentionMs` is deleted, irrespective
of its status; every other record is kept unchanged. -/
def reap (reg : Registry) (now : Nat) : Registry :=
  fun id =>
    match reg id with
    | none => none
    | some e => if now - e.startTime > retentionMs then none else some e

/-- Outcome of the popup execute-button click handler (src/popup.js lines
12-27): either the validation error is shown and no message is sent, or
the `executeScript` message is sent to the background service with the
parsed duration. -/
inductive PopupOutcome where
  | validationError (msg : String)
  | sendMessage (duration : Int)
deriving DecidableEq

/-- Model of the duration validation in the popup click handler
(src/popup.js lines 13-18): `duration < 1000 || duration > 60000` is
rejected before any message is sent. -/
def executeBtnClick (duration : Int) : PopupOutcome :=
  if duration < 1000 ∨ duration > 60000 then
    .validationError "Please enter a duration between 1000ms and 60000ms"
  else
    .sendMessage duration

/-- The start-execution flow as the caller sees it: the popup validates the
duration and only on success sends the message that runs
`handleExecuteScript` in the background service. -/
def startExecutionFlow (env : StartEnv) (duration : Int) (reg : Registry) : StartOutput :=
  match executeBtnClick duration with
  | .validationError msg => ⟨reg, ⟨false, none, some msg⟩, [], []⟩
  | .sendMessage d => handleExecuteScript env d.toNat reg

/-- System state: the registry together with the pending fallback timers
(fire time, executionId). -/
structure SysState where
  reg : Registry
  timers : List (Nat × Nat)

/-- The operations that touch the registry, as discrete atomic steps:
a start request, a cancel request, a fallback timer firing, and the
cleanup sweep.  (The code has no executor completion callback; the
fallback timer is the only source of the `completed` transition.) -/
inductive Step where
  | start (env : StartEnv) (duration : Nat)
  | cancel (env : CancelEnv) (eid : Nat)
  | fallback (eid : Nat) (now : Nat)
  | sweep (now : Nat)

/-- Effect of one step on the system state. -/
def applyStep (s : SysState) : Step → SysState
  | .start env d =>
      let out := handleExecuteScript env d s.reg
      ⟨out.reg, s.timers ++ out.timers⟩
  | .cancel env eid => ⟨(handleCancelScript env eid s.reg).1, s.timers⟩
  | .fallback eid now => ⟨fallbackFire s.reg eid now, s.timers⟩
  | .sweep now => ⟨reap s.reg now, s.timers⟩

/-- A start step dispatches with a fresh executionId when the id the
executor hands back is not already a key of the registry.  The code itself
has no defence against a duplicate: `Map.set` would overwrite. -/
def stepFresh (s : SysState) : Step → Bool
  | .start env _ =>
      match env.dispatch with
      | .resolves (some eid) => (s.reg eid).isNone
      | _ => true
  | _ => true

/-- Whether a step is the cleanup sweep. -/
def isSweep : Step → Bool
  | .sweep _ => true
  | _ => false

/-- Whether an event trace contains the dispatch call. -/
def containsDispatch (evs : List Event) : Bool :=
  evs.any fun e =>
    match e with
    | .dispatchCall => true
    | _ => false

/-- Whether an event is a registry insertion. -/
def isInsert : Event → Bool
  | .registryInsert _ => true
  | _ => false

/-- Whether some registry insertion occurs strictly before some dispatch
call in an event trace. -/
def insertBeforeDispatch : List Event → Bool
  | [] => false
  | e :: rest => (isInsert e && containsDispatch rest) || insertBeforeDispatch rest

/-- A sequence of start requests: for each, the call environment and the
requested duration.  Returns the final registry and the executionIds
returned to the caller, in order. -/
def runStarts (reg : Registry) : List (StartEnv × Nat) → Registry × List Nat
  | [] => (reg, [])
  | (env, d) :: rest =>
      let out := handleExecuteScript env d reg
      let tail := runStarts out.reg rest
      match out.result.executionId with
      | some eid => (tail.1, eid :: tail.2)
      | none => tail

/-- The executionIds the external executor hands back across a sequence of
start requests (the ids of the resolving dispatch outcomes, in order). -/
def dispatchIds : List (StartEnv × Nat) → List Nat
  | [] => []
  | (env, _) :: rest =>
      match env.dispatch with
      | .resolves (some eid) => eid :: dispatchIds rest
      | _ => dispatchIds rest

/-- Sample running record used by concrete witnesses. -/
def recRunning : ExecutionRecord := ⟨1, 11, 3, 100, 5000, .running, none⟩

/-- Sample terminated record used by concrete witnesses. -/
def recTerminated : ExecutionRecord := ⟨1, 11, 3, 100, 5000, .terminated, some 400⟩

/-- Registry holding only `recRunning` under key 1. -/
def regRunning : Registry := Registry.set emptyRegistry 1 recRunning

/-- Registry holding only `recTerminated` under key 1. -/
def regTerminated : Registry := Registry.set emptyRegistry 1 recTerminated

/-- C10: when the dispatch call resolves without throwing but its result
carries no executionId, `handleExecuteScript` returns the failure response
with the message of src/background.js line 159, the registry is unchanged,
and no record or fallback timer is created. -/
theorem start_noExecutionId_failure_no_record (env : StartEnv) (duration : Nat)
    (reg : Registry) (tabId : Nat) (hapi : env.apiAvailable = true)
    (htab : env.activeTab = some tabId) (hdisp : env.dispatch = .resolves none) :
    handleExecuteScript env duration reg =
      ⟨reg, ⟨false, none, some "No execution ID returned by browser"⟩, [.dispatchCall], []⟩ := by
  simp [handleExecuteScript, hapi, htab, hdisp]

/-- Witness for C10 at a concrete environment and the empty registry. -/
theorem start_noExecutionId_failure_no_record_witness :
    handleExecuteScript ⟨true, some 3, .resolves none, 23, 100⟩ 5000 emptyRegistry =
      ⟨emptyRegistry, ⟨false, none, some "No execution ID returned by browser"⟩,
        [.dispatchCall], []⟩ :=
  start_noExecutionId_failure_no_record ⟨true, some 3, .resolves none, 23, 100⟩ 5000
    emptyRegistry 3 rfl rfl rfl

/-- C5: a cancel request for an unknown identifier fails with the
Execution-not-found error, and one for a record not in running status
fails with the Execution-is-not-running error; in both cases the registry
is returned unchanged and the empty event list shows no executor call was
issued. -/
theorem cancel_precondition_failures (env : CancelEnv) (eid : Nat) (reg : Registry) :
    (reg eid = none →
      handleCancelScript env eid reg =
        (reg, ⟨false, false, some "Execution not found"⟩, [])) ∧
    (∀ e : ExecutionRecord, reg eid = some e → e.status ≠ Status.running →
      handleCancelScript env eid reg =
        (reg, ⟨false, false, some "Execution is not running"⟩, [])) := by
  constructor
  · intro h
    simp [handleCancelScript, h]
  · intro e he hst
    simp [handleCancelScript, he, hst]

/-- Witness for C5: a missing key and a terminated record, both on a
concrete registry. -/
theorem cancel_precondition_failures_witness :
    handleCancelScript ⟨.ok (), .ok true, 900⟩ 5 regTerminated =
      (regTerminated, ⟨false, false, some "Execution not found"⟩, []) ∧
    handleCancelScript ⟨.ok (), .ok true, 900⟩ 1 regTerminated =
      (regTerminated, ⟨false, false, some "Execution is not running"⟩, []) :=
  ⟨(cancel_precondition_failures ⟨.ok (), .ok true, 900⟩ 5 regTerminated).1 rfl,
    (cancel_precondition_failures ⟨.ok (), .ok true, 900⟩ 1 regTerminated).2
      recTerminated rfl (by decide)⟩

/-- C4: a duration outside the inclusive bounds 1000 to 60000 ms is
rejected by the popup validation with the validation message before any
message reaches the background service: the registry is unchanged, no
dispatch call is issued and no timer is scheduled.  Durations 999 and
999999 are rejected; durations exactly 1000 and 60000 pass validation and
the flow proceeds to `handleExecuteScript`. -/
theorem duration_validation_bounds :
    (∀ d : Int, d < 1000 ∨ d > 60000 → ∀ (env : StartEnv) (reg : Registry),
      startExecutionFlow env d reg =
        ⟨reg, ⟨false, none, some "Please enter a duration between 1000ms and 60000ms"⟩,
          [], []⟩) ∧
    executeBtnClick 999 =
      .validationError "Please enter a duration between 1000ms and 60000ms" ∧
    executeBtnClick 999999 =
      .validationError "Please enter a duration between 1000ms and 60000ms" ∧
    executeBtnClick 1000 = .sendMessage 1000 ∧
    executeBtnClick 60000 = .sendMessage 60000 ∧
    (∀ (env : StartEnv) (reg : Registry),
      startExecutionFlow env 1000 reg = handleExecuteScript env 1000 reg) ∧
    (∀ (env : StartEnv) (reg : Registry),
      startExecutionFlow env 60000 reg = handleExecuteScript env 60000 reg) := by
  refine ⟨?_, rfl, rfl, rfl, rfl, ?_, ?_⟩
  · intro d hd env reg
    unfold startExecutionFlow executeBtnClick
    rw [if_pos hd]
  · intro env reg
    rfl
  · intro env reg
    rfl

/-- Witness for C4 at the out-of-bounds duration 999. -/
theorem duration_validation_bounds_witness :
    startExecutionFlow ⟨true, some 3, .resolves (some 7), 21, 100⟩ 999 emptyRegistry =
      ⟨emptyRegistry,
        ⟨false, none, some "Please enter a duration between 1000ms and 60000ms"⟩, [], []⟩ :=
  duration_validation_bounds.1 999 (Or.inl (by decide))
    ⟨true, some 3, .resolves (some 7), 21, 100⟩ emptyRegistry

/-- C1 counterexample: on a concrete successful start the event trace of
`handleExecuteScript` is dispatch first, registry insertion second
(mirroring src/background.js, where line 147 awaits the dispatch and line
166 performs the insertion), so no registry insertion occurs strictly
before the dispatch call: the claimed ordering is false. -/
theorem dispatch_precedes_insert_counterexample :
    (handleExecuteScript ⟨true, some 3, .resolves (some 7), 21, 100⟩ 5000
        emptyRegistry).events =
      [Event.dispatchCall, Event.registryInsert 7, Event.scheduleFallback 7 6000] ∧
    insertBeforeDispatch
      (handleExecuteScript ⟨true, some 3, .resolves (some 7), 21, 100⟩ 5000
        emptyRegistry).events = false :=
  ⟨rfl, rfl⟩

/-- C1 amended: on every successful start the record is inserted in
`running` status after the dispatch call resolves with an executionId and
strictly before the handle is returned, so a cancel request issued at any
point after `handleExecuteScript` returns its handle (the earliest moment
the executionId exists) finds a `running` record and succeeds. -/
theorem start_insert_follows_dispatch (env : StartEnv) (d : Nat) (reg : Registry)
    (tabId eid : Nat) (hapi : env.apiAvailable = true) (htab : env.activeTab = some tabId)
    (hdisp : env.dispatch = .resolves (some eid)) :
    (handleExecuteScript env d reg).result = ⟨true, some eid, none⟩ ∧
    (handleExecuteScript env d reg).events =
      [Event.dispatchCall, Event.registryInsert eid, Event.scheduleFallback eid (d + 1000)] ∧
    (handleExecuteScript env d reg).reg eid =
      some ⟨eid, env.tempId, tabId, env.now, d, Status.running, none⟩ ∧
    (∀ cenv : CancelEnv,
      (handleCancelScript cenv eid (handleExecuteScript env d reg).reg).2.1 =
        ⟨true, true, none⟩) := by
  refine ⟨?_, ?_, ?_, ?_⟩ <;>
    simp [handleExecuteScript, handleCancelScript, hapi, htab, hdisp, Registry.set]

/-- Witness for the amended C1 at a concrete environment. -/
theorem start_insert_follows_dispatch_witness :
    (handleExecuteScript ⟨true, some 3, .resolves (some 7), 21, 100⟩ 5000
        emptyRegistry).result = ⟨true, some 7, none⟩ ∧
    (handleExecuteScript ⟨true, some 3, .resolves (some 7), 21, 100⟩ 5000
        emptyRegistry).events =
      [Event.dispatchCall, Event.registryInsert 7, Event.scheduleFallback 7 (5000 + 1000)] ∧
    (handleExecuteScript ⟨true, some 3, .resolves (some 7), 21, 100⟩ 5000
        emptyRegistry).reg 7 = some ⟨7, 21, 3, 100, 5000, Status.running, none⟩ ∧
    (∀ cenv : CancelEnv,
      (handleCancelScript cenv 7
        (handleExecuteScript ⟨true, some 3, .resolves (some 7), 21, 100⟩ 5000
          emptyRegistry).reg).2.1 = ⟨true, true, none⟩) :=
  start_insert_follows_dispatch ⟨true, some 3, .resolves (some 7), 21, 100⟩ 5000
    emptyRegistry 3 7 rfl rfl rfl

/-- C2 counterexample: in the legacy cancel handler (src/background.js
lines 430-455) a cancel request on a running record whose terminate call
was issued and resolved false leaves the record in `running` status with
no endTime and reports the Failed-to-terminate error, so the transition to
`terminated` is not unconditional. -/
theorem legacy_cancel_failure_keeps_running :
    (handleCancelScriptLegacy ⟨.ok false, .ok (), 900⟩ 1 regRunning).1 1 =
      some recRunning ∧
    recRunning.status = Status.running ∧
    recRunning.endTime = none ∧
    (handleCancelScriptLegacy ⟨.ok false, .ok (), 900⟩ 1 regRunning).2 =
      ⟨false, false, some "Failed to terminate script"⟩ :=
  ⟨rfl, rfl, rfl, rfl⟩

/-- C2 amended: in the cooperative-cancellation handler the transition is
as claimed — once the preconditions pass, the record is marked
`terminated` with endTime set for every outcome of the flag-injection and
terminate calls; in the legacy handler the record transitions only when
the terminate call returns true, and is left unchanged with a failure
response when it returns false or throws (a thrown terminate reaches the
outer catch, which returns the thrown message with no registry change). -/
theorem cancel_transition_current_vs_legacy :
    (∀ (env : CancelEnv) (eid : Nat) (reg : Registry) (e : ExecutionRecord),
      reg eid = some e → e.status = Status.running →
      (handleCancelScript env eid reg).1 eid =
        some { e with status := Status.terminated, endTime := some env.now }) ∧
    (∀ (env : CancelEnvLegacy) (eid : Nat) (reg : Registry) (e : ExecutionRecord),
      reg eid = some e → e.status = Status.running → env.terminate = .ok true →
      (handleCancelScriptLegacy env eid reg).1 eid =
        some { e with status := Status.terminated, endTime := some env.now }) ∧
    (∀ (env : CancelEnvLegacy) (eid : Nat) (reg : Registry) (e : ExecutionRecord),
      reg eid = some e → e.status = Status.running → env.terminate = .ok false →
      (handleCancelScriptLegacy env eid reg).1 = reg ∧
      (handleCancelScriptLegacy env eid reg).2 =
        ⟨false, false, some "Failed to terminate script"⟩) ∧
    (∀ (env : CancelEnvLegacy) (eid : Nat) (reg : Registry) (e : ExecutionRecord)
      (msg : String),
      reg eid = some e → e.status = Status.running → env.terminate = .error msg →
      (handleCancelScriptLegacy env eid reg).1 = reg ∧
      (handleCancelScriptLegacy env eid reg).2 = ⟨false, false, some msg⟩) := by
  refine ⟨?_, ?_, ?_, ?_⟩
  · intro env eid reg e he hst
    simp [handleCancelScript, he, hst, Registry.set]
  · intro env eid reg e he hst ht
    cases hiu : env.indicatorUpdate with
    | error msg => simp [handleCancelScriptLegacy, he, hst, ht, hiu, Registry.set]
    | ok u => simp [handleCancelScriptLegacy, he, hst, ht, hiu, Registry.set]
  · intro env eid reg e he hst ht
    constructor <;> simp [handleCancelScriptLegacy, he, hst, ht]
  · intro env eid reg e msg he hst ht
    constructor <;> simp [handleCancelScriptLegacy, he, hst, ht]

/-- Witness for the amended C2: the cooperative handler terminates the
record even when both executor calls throw, and the legacy handler leaves
the record registry unchanged when its terminate call throws. -/
theorem cancel_transition_current_vs_legacy_witness :
    (handleCancelScript ⟨.error "inject failed", .error "terminate failed", 900⟩ 1
        regRunning).1 1 =
      some { recRunning with status := Status.terminated, endTime := some 900 } ∧
    (handleCancelScriptLegacy ⟨.error "terminate threw", .ok (), 900⟩ 1 regRunning).1 =
      regRunning ∧
    (handleCancelScriptLegacy ⟨.error "terminate threw", .ok (), 900⟩ 1 regRunning).2 =
      ⟨false, false, some "terminate threw"⟩ :=
  ⟨cancel_transition_current_vs_legacy.1
      ⟨.error "inject failed", .error "terminate failed", 900⟩ 1 regRunning recRunning
      rfl rfl,
    (cancel_transition_current_vs_legacy.2.2.2
      ⟨.error "terminate threw", .ok (), 900⟩ 1 regRunning recRunning "terminate threw"
      rfl rfl rfl).1,
    (cancel_transition_current_vs_legacy.2.2.2
      ⟨.error "terminate threw", .ok (), 900⟩ 1 regRunning recRunning "terminate threw"
      rfl rfl rfl).2⟩

/-- C3 counterexample: in the cooperative cancel handler the caller-visible
response after a failed terminate call is success and terminated with no
error — identical to the response when every executor call succeeds — while
the record still becomes `terminated`; the executor-cancel failure is not
surfaced to the caller, contrary to the claim. -/
theorem cancel_result_hides_executor_failure :
    (handleCancelScript ⟨.error "inject failed", .error "terminate failed", 900⟩ 1
        regRunning).2.1 = ⟨true, true, none⟩ ∧
    (handleCancelScript ⟨.ok (), .ok true, 900⟩ 1 regRunning).2.1 = ⟨true, true, none⟩ ∧
    (handleCancelScript ⟨.error "inject failed", .error "terminate failed", 900⟩ 1
        regRunning).1 1 =
      some { recRunning with status := Status.terminated, endTime := some 900 } :=
  ⟨rfl, rfl, rfl⟩

/-- C3 amended: for every cancel request on a running record the
cooperative handler returns the constant success response whatever the
outcomes of the executor calls — indistinguishable from the all-success
environment — and the record becomes `terminated`; the executor
acknowledgement is not reported to the caller. -/
theorem cancel_result_constant_on_running (env : CancelEnv) (eid : Nat) (reg : Registry)
    (e : ExecutionRecord) (he : reg eid = some e) (hst : e.status = Status.running) :
    (handleCancelScript env eid reg).2.1 = ⟨true, true, none⟩ ∧
    (handleCancelScript env eid reg).2.1 =
      (handleCancelScript ⟨.ok (), .ok true, env.now⟩ eid reg).2.1 ∧
    (handleCancelScript env eid reg).1 eid =
      some { e with status := Status.terminated, endTime := some env.now } := by
  refine ⟨?_, ?_, ?_⟩ <;> simp [handleCancelScript, he, hst, Registry.set]

/-- Witness for the amended C3 at a concrete failing environment. -/
theorem cancel_result_constant_on_running_witness :
    (handleCancelScript ⟨.error "inject failed", .error "terminate failed", 901⟩ 1
        regRunning).2.1 = ⟨true, true, none⟩ ∧
    (handleCancelScript ⟨.error "inject failed", .error "terminate failed", 901⟩ 1
        regRunning).2.1 =
      (handleCancelScript ⟨.ok (), .ok true, 901⟩ 1 regRunning).2.1 ∧
    (handleCancelScript ⟨.error "inject failed", .error "terminate failed", 901⟩ 1
        regRunning).1 1 =
      some { recRunning with status := Status.terminated, endTime := some 901 } :=
  cancel_result_constant_on_running
    ⟨.error "inject failed", .error "terminate failed", 901⟩ 1 regRunning recRunning rfl rfl

/-- C6: once a record is in a terminal status (anything other than
`running`), no operation — a start request whose dispatched id is fresh, a
cancel request, a fallback timer firing, or the cleanup sweep — ever
changes its status or endTime: afterwards the registry either still holds
the identical record or (only by the sweep) no longer holds it.  In
particular the fallback timer, guarded by the running check of
src/background.js line 178, does not overwrite a terminal record.  (The
code has no executor completion callback, so these are all the operations
that touch the registry.) -/
theorem terminal_records_never_mutated (s : SysState) (st : Step)
    (hf : stepFresh s st = true) (id : Nat) (e : ExecutionRecord)
    (hid : s.reg id = some e) (hterm : e.status ≠ Status.running) :
    (applyStep s st).reg id = none ∨ (applyStep s st).reg id = some e := by
  cases st with
  | start env d =>
      right
      obtain ⟨api, tab, disp, tmp, tnow⟩ := env
      cases api with
      | false => simpa [applyStep, handleExecuteScript] using hid
      | true =>
          cases tab with
          | none => simpa [applyStep, handleExecuteScript] using hid
          | some tabId =>
              cases disp with
              | throws msg => simpa [applyStep, handleExecuteScript] using hid
              | resolves oid =>
                  cases oid with
                  | none => simpa [applyStep, handleExecuteScript] using hid
                  | some eid =>
                      have hne : id ≠ eid := by
                        intro hEq
                        simp only [stepFresh] at hf
                        rw [← hEq, hid] at hf
                        simp at hf
                      simpa [applyStep, handleExecuteScript, Registry.set, hne] using hid
  | cancel env eid =>
      right
      cases hc : s.reg eid with
      | none => simpa [applyStep, handleCancelScript, hc] using hid
      | some e2 =>
          by_cases hst : e2.status = Status.running
          · have hne : id ≠ eid := by
              intro hEq
              rw [hEq, hc] at hid
              exact hterm ((Option.some_inj.mp hid) ▸ hst)
            simpa [applyStep, handleCancelScript, hc, hst, Registry.set, hne] using hid
          · simpa [applyStep, handleCancelScript, hc, hst] using hid
  | fallback eid now =>
      right
      cases hc : s.reg eid with
      | none => simpa [applyStep, fallbackFire, hc] using hid
      | some e2 =>
          by_cases hst : e2.status = Status.running
          · have hne : id ≠ eid := by
              intro hEq
              rw [hEq, hc] at hid
              exact hterm ((Option.some_inj.mp hid) ▸ hst)
            simpa [applyStep, fallbackFire, hc, hst, Registry.set, hne] using hid
          · simpa [applyStep, fallbackFire, hc, hst] using hid
  | sweep now =>
      by_cases h : now - e.startTime > retentionMs
      · left
        simp [applyStep, reap, hid, h]
      · right
        simp [applyStep, reap, hid, h]

/-- Witness for C6: a fallback timer firing against a terminated record
leaves it untouched. -/
theorem terminal_records_never_mutated_witness :
    (applyStep ⟨regTerminated, []⟩ (.fallback 1 950)).reg 1 = none ∨
    (applyStep ⟨regTerminated, []⟩ (.fallback 1 950)).reg 1 = some recTerminated :=
  terminal_records_never_mutated ⟨regTerminated, []⟩ (.fallback 1 950) rfl 1
    recTerminated rfl (by decide)

/-- C7: a successful start with requested duration d creates the record
with startTime = now and schedules exactly one fallback timer firing at
now + d + 1000 (the 1000 ms grace margin of src/background.js line 182);
when that timer fires on a record that is still running with that
startTime and duration, the record becomes `completed` with endTime equal
to the fire time, which is at least startTime + d and at most
startTime + d + 1000 — never earlier than startTime + d. -/
theorem fallback_completion_bounds (env : StartEnv) (d : Nat) (reg : Registry)
    (tabId eid : Nat) (hapi : env.apiAvailable = true) (htab : env.activeTab = some tabId)
    (hdisp : env.dispatch = .resolves (some eid)) :
    (handleExecuteScript env d reg).reg eid =
      some ⟨eid, env.tempId, tabId, env.now, d, Status.running, none⟩ ∧
    (handleExecuteScript env d reg).timers = [(env.now + d + 1000, eid)] ∧
    (∀ (reg2 : Registry) (e : ExecutionRecord), reg2 eid = some e →
      e.status = Status.running → e.startTime = env.now → e.duration = d →
      fallbackFire reg2 eid (env.now + d + 1000) eid =
        some { e with status := Status.completed, endTime := some (env.now + d + 1000) } ∧
      e.startTime + e.duration ≤ env.now + d + 1000 ∧
      env.now + d + 1000 ≤ e.startTime + e.duration + 1000) := by
  refine ⟨by simp [handleExecuteScript, hapi, htab, hdisp, Registry.set],
    by simp [handleExecuteScript, hapi, htab, hdisp], ?_⟩
  intro reg2 e he hst hstart hdur
  refine ⟨by simp [fallbackFire, he, hst, Registry.set], ?_, ?_⟩ <;> omega

/-- Witness for C7 at a concrete start and fallback firing. -/
theorem fallback_completion_bounds_witness :
    (handleExecuteScript ⟨true, some 3, .resolves (some 7), 21, 100⟩ 5000
        emptyRegistry).reg 7 = some ⟨7, 21, 3, 100, 5000, Status.running, none⟩ ∧
    (handleExecuteScript ⟨true, some 3, .resolves (some 7), 21, 100⟩ 5000
        emptyRegistry).timers = [(100 + 5000 + 1000, 7)] ∧
    (∀ (reg2 : Registry) (e : ExecutionRecord), reg2 7 = some e →
      e.status = Status.running → e.startTime = 100 → e.duration = 5000 →
      fallbackFire reg2 7 (100 + 5000 + 1000) 7 =
        some { e with status := Status.completed, endTime := some (100 + 5000 + 1000) } ∧
      e.startTime + e.duration ≤ 100 + 5000 + 1000 ∧
      100 + 5000 + 1000 ≤ e.startTime + e.duration + 1000) :=
  fallback_completion_bounds ⟨true, some 3, .resolves (some 7), 21, 100⟩ 5000
    emptyRegistry 3 7 rfl rfl rfl

/-- C9: the sweep interval constant is 60000 ms and the retention window
is 5 minutes; the sweep deletes every record whose startTime is more than
the retention window in the past — irrespective of its status — and keeps
every other record unchanged; and no operation other than the sweep ever
removes a key from the registry. -/
theorem reap_sweep_spec :
    reapIntervalMs = 60000 ∧
    retentionMs = 5 * 60 * 1000 ∧
    (∀ (reg : Registry) (now id : Nat) (e : ExecutionRecord), reg id = some e →
      now - e.startTime > retentionMs → reap reg now id = none) ∧
    (∀ (reg : Registry) (now id : Nat) (e : ExecutionRecord), reg id = some e →
      ¬ now - e.startTime > retentionMs → reap reg now id = some e) ∧
    (∀ (s : SysState) (st : Step), isSweep st = false → ∀ id : Nat,
      (s.reg id).isSome = true → ((applyStep s st).reg id).isSome = true) := by
  refine ⟨rfl, rfl, ?_, ?_, ?_⟩
  · intro reg now id e he h
    simp [reap, he, h]
  · intro reg now id e he h
    simp [reap, he, h]
  · intro s st hsw id hsome
    cases st with
    | start env d =>
        obtain ⟨api, tab, disp, tmp, tnow⟩ := env
        cases api with
        | false => simpa [applyStep, handleExecuteScript] using hsome
        | true =>
            cases tab with
            | none => simpa [applyStep, handleExecuteScript] using hsome
            | some tabId =>
                cases disp with
                | throws msg => simpa [applyStep, handleExecuteScript] using hsome
                | resolves oid =>
                    cases oid with
                    | none => simpa [applyStep, handleExecuteScript] using hsome
                    | some eid =>
                        by_cases hEq : id = eid
                        · simp [applyStep, handleExecuteScript, Registry.set, hEq]
                        · simpa [applyStep, handleExecuteScript, Registry.set, hEq]
                            using hsome
    | cancel env eid =>
        cases hc : s.reg eid with
        | none => simpa [applyStep, handleCancelScript, hc] using hsome
        | some e2 =>
            by_cases hst : e2.status = Status.running
            · by_cases hEq : id = eid
              · simp [applyStep, handleCancelScript, hc, hst, Registry.set, hEq]
              · simpa [applyStep, handleCancelScript, hc, hst, Registry.set, hEq]
                  using hsome
            · simpa [applyStep, handleCancelScript, hc, hst] using hsome
    | fallback eid now =>
        cases hc : s.reg eid with
        | none => simpa [applyStep, fallbackFire, hc] using hsome
        | some e2 =>
            by_cases hst : e2.status = Status.running
            · by_cases hEq : id = eid
              · simp [applyStep, fallbackFire, hc, hst, Registry.set, hEq]
              · simpa [applyStep, fallbackFire, hc, hst, Registry.set, hEq] using hsome
            · simpa [applyStep, fallbackFire, hc, hst] using hsome
    | sweep now => simp [isSweep] at hsw

/-- Witness for C9: the sweep removes a running record whose startTime is
older than the retention window. -/
theorem reap_sweep_spec_witness :
    reap regRunning 500000 1 = none :=
  reap_sweep_spec.2.2.1 regRunning 500000 1 recRunning rfl (by decide)

/-- The executionIds returned across a sequence of start requests form a
sublist of the ids the external executor handed back: the handler returns
exactly the executor-supplied id on success and returns no id otherwise. -/
theorem runStarts_sublist (envs : List (StartEnv × Nat)) :
    ∀ reg : Registry, List.Sublist (runStarts reg envs).2 (dispatchIds envs) := by
  induction envs with
  | nil =>
      intro reg
      simp [runStarts, dispatchIds]
  | cons p rest ih =>
      intro reg
      obtain ⟨env, d⟩ := p
      obtain ⟨api, tab, disp, tmp, tnow⟩ := env
      cases disp with
      | throws msg =>
          cases api with
          | false => simpa [runStarts, dispatchIds, handleExecuteScript] using ih reg
          | true =>
              cases tab with
              | none => simpa [runStarts, dispatchIds, handleExecuteScript] using ih reg
              | some tabId =>
                  simpa [runStarts, dispatchIds, handleExecuteScript] using ih reg
      | resolves oid =>
          cases oid with
          | none =>
              cases api with
              | false => simpa [runStarts, dispatchIds, handleExecuteScript] using ih reg
              | true =>
                  cases tab with
                  | none => simpa [runStarts, dispatchIds, handleExecuteScript] using ih reg
                  | some tabId =>
                      simpa [runStarts, dispatchIds, handleExecuteScript] using ih reg
          | some eid =>
              cases api with
              | false =>
                  simp only [runStarts, dispatchIds, handleExecuteScript]
                  exact List.Sublist.cons eid
                    (by simpa [runStarts, handleExecuteScript] using ih reg)
              | true =>
                  cases tab with
                  | none =>
                      simp only [dispatchIds]
                      exact List.Sublist.cons eid
                        (by simpa [runStarts, handleExecuteScript] using ih reg)
                  | some tabId =>
                      simp only [dispatchIds]
                      have hred :
                          (runStarts reg
                            ((⟨true, some tabId, .resolves (some eid), tmp, tnow⟩, d)
                              :: rest)).2 =
                          eid :: (runStarts
                            (handleExecuteScript
                              ⟨true, some tabId, .resolves (some eid), tmp, tnow⟩ d
                              reg).reg rest).2 := by
                        simp [runStarts, handleExecuteScript]
                      rw [hred]
                      exact List.Sublist.cons₂ eid (ih _)

/-- C8 counterexample: the coordinator does not allocate executionIds —
they come back from the external executor — and nothing rejects a
duplicate: a sequence of two start requests for which the executor hands
back the id 7 twice returns the ids 7 and 7, which are not pairwise
distinct. -/
theorem duplicate_executor_ids_counterexample :
    (runStarts emptyRegistry
      [(⟨true, some 3, .resolves (some 7), 21, 100⟩, 5000),
       (⟨true, some 3, .resolves (some 7), 22, 150⟩, 5000)]).2 = [7, 7] ∧
    ¬ ((runStarts emptyRegistry
      [(⟨true, some 3, .resolves (some 7), 21, 100⟩, 5000),
       (⟨true, some 3, .resolves (some 7), 22, 150⟩, 5000)]).2).Nodup := by
  refine ⟨rfl, ?_⟩
  intro h
  rw [show (runStarts emptyRegistry
      [(⟨true, some 3, .resolves (some 7), 21, 100⟩, 5000),
       (⟨true, some 3, .resolves (some 7), 22, 150⟩, 5000)]).2 = [7, 7] from rfl] at h
  simp at h

/-- C8 amended: uniqueness of the returned executionIds is delegated to
the external executor: whenever the ids the executor hands back across a
sequence of start requests are pairwise distinct, the executionIds
returned to callers are pairwise distinct; the code itself contains no
allocation or duplicate check. -/
theorem returned_ids_distinct_of_executor_distinct (reg : Registry)
    (envs : List (StartEnv × Nat)) (h : (dispatchIds envs).Nodup) :
    ((runStarts reg envs).2).Nodup :=
  List.Nodup.sublist (runStarts_sublist envs reg) h

/-- Witness for the amended C8: two starts with distinct executor ids
return distinct ids. -/
theorem returned_ids_distinct_of_executor_distinct_witness :
    ((runStarts emptyRegistry
      [(⟨true, some 3, .resolves (some 7), 21, 100⟩, 5000),
       (⟨true, some 3, .resolves (some 8), 22, 150⟩, 4000)]).2).Nodup :=
  returned_ids_distinct_of_executor_distinct emptyRegistry
    [(⟨true, some 3, .resolves (some 7), 21, 100⟩, 5000),
     (⟨true, some 3, .resolves (some 8), 22, 150⟩, 4000)] (by decide)

end ScriptCancelDemo
